import Mathlib

/-!
Shallow embedding of the ScrollTrackerService from
src/components/PageTracker.tsx (class ScrollTrackerServiceClass).

JavaScript numbers are modelled as rationals (every numeric computation the
claims exercise is exact in IEEE doubles, so the rational semantics agrees
with the JavaScript one at those inputs).  The value Infinity used for
centerDistance is modelled by an explicit point at infinity (QInf.inf).
A JavaScript Map is modelled as an association list in insertion order with
unique keys, matching Map.set / Map.delete / Map.forEach semantics.
Subscriber callbacks are modelled by listener identifiers; every operation
returns, besides the successor state, the list of notification events
(listener identifier together with the view value delivered to it) that it
emits, in order.  syncToWindow only mirrors currentView to a global and is
not modelled.
-/

/-- A JavaScript number that may be Infinity (used for centerDistance). -/
inductive QInf where
  | fin (q : ℚ)
  | inf
  deriving DecidableEq

/-- The JavaScript strict-less-than on such values. -/
def QInf.lt : QInf → QInf → Prop
  | .fin a, .fin b => a < b
  | .fin _, .inf => True
  | .inf, _ => False

instance : ∀ a b : QInf, Decidable (QInf.lt a b)
  | .fin a, .fin b => inferInstanceAs (Decidable (a < b))
  | .fin _, .inf => .isTrue trivial
  | .inf, .fin _ => .isFalse id
  | .inf, .inf => .isFalse id

/-- Order embedding of QInf into WithTop ℚ, used for order reasoning. -/
def QInf.toW : QInf → WithTop ℚ
  | .fin q => (q : WithTop ℚ)
  | .inf => ⊤

/-- JavaScript Math.round: round half toward positive infinity. -/
def jsRound (q : ℚ) : ℤ := ⌊q + 1 / 2⌋

/-- The CurrentView record of PageTracker.tsx. -/
structure CurrentView where
  pageNumber : ℚ
  viewportProgress : ℚ
  documentProgress : ℚ
  totalPages : ℚ
  deriving DecidableEq

/-- A value of the pageVisibilities map: a ratio and a centerDistance. -/
structure VisEntry where
  ratio : ℚ
  centerDistance : QInf
  deriving DecidableEq

/-- JavaScript Map.set: overwrite in place when the key is present
(keeping its position), append otherwise. -/
def mapSet (k : ℚ) (v : VisEntry) : List (ℚ × VisEntry) → List (ℚ × VisEntry)
  | [] => [(k, v)]
  | (k1, v1) :: rest => if k1 = k then (k, v) :: rest else (k1, v1) :: mapSet k v rest

/-- JavaScript Map.delete (keys are unique). -/
def mapDelete (k : ℚ) (m : List (ℚ × VisEntry)) : List (ℚ × VisEntry) :=
  m.filter (fun kv => kv.1 ≠ k)

/-- The mutable accumulator bestPage / bestRatio / bestCenterDistance of the
forEach scan in reportPageVisibility (PageTracker.tsx lines 666-682). -/
structure BestAcc where
  bestPage : ℚ
  bestRatio : ℚ
  bestCenterDistance : QInf
  deriving DecidableEq

/-- One iteration of the forEach scan: a strictly higher ratio wins; an
equal ratio with strictly smaller centerDistance wins the tie-break. -/
def bestStep (b : BestAcc) (page : ℚ) (vis : VisEntry) : BestAcc :=
  if b.bestRatio < vis.ratio then
    { bestPage := page, bestRatio := vis.ratio, bestCenterDistance := vis.centerDistance }
  else if vis.ratio = b.bestRatio ∧ QInf.lt vis.centerDistance b.bestCenterDistance then
    { bestPage := page, bestRatio := b.bestRatio, bestCenterDistance := vis.centerDistance }
  else b

/-- The forEach scan from an arbitrary accumulator. -/
def bestFold (m : List (ℚ × VisEntry)) (b0 : BestAcc) : BestAcc :=
  m.foldl (fun b kv => bestStep b kv.1 kv.2) b0

/-- The full best-page scan, starting from the fallback accumulator
bestPage = 1, bestRatio = 0, bestCenterDistance = Infinity. -/
def findBest (m : List (ℚ × VisEntry)) : BestAcc :=
  bestFold m { bestPage := 1, bestRatio := 0, bestCenterDistance := .inf }

/-- The candidate list the best-page selection conceptually ranges over:
the fallback page 1 with ratio 0 and infinite centerDistance, followed by
the map entries. -/
def bestCandidates (m : List (ℚ × VisEntry)) : List (ℚ × VisEntry) :=
  (1, { ratio := 0, centerDistance := QInf.inf }) :: m

/-- documentProgress derivation (PageTracker.tsx lines 690-692, 733-735,
829-831): 0 when totalPages is at most 1, otherwise the page position
scaled to [0,1] and rounded to two decimals. -/
def documentProgressOf (totalPages bestPage : ℚ) : ℚ :=
  if 1 < totalPages then (jsRound ((bestPage - 1) / (totalPages - 1) * 100) : ℚ) / 100 else 0

/-- The whole mutable state of ScrollTrackerServiceClass. -/
structure TrackerState where
  currentView : CurrentView
  listeners : List ℕ
  totalPages : ℚ
  pageVisibilities : List (ℚ × VisEntry)
  deriving DecidableEq

/-- The construction-time field values of ScrollTrackerServiceClass (lines 641-649). -/
def initialState : TrackerState :=
  { currentView := { pageNumber := 1, viewportProgress := 0, documentProgress := 0, totalPages := 1 }
    listeners := []
    totalPages := 4
    pageVisibilities := [] }

/-- A notification event: the listener notified and the view it received. -/
abbrev NotifyEvent := ℕ × CurrentView

/-- notifyListeners: every registered listener receives the current view. -/
def notifyListeners (s : TrackerState) : List NotifyEvent :=
  s.listeners.map (fun i => (i, s.currentView))

/-- Helper: return a state together with the notifications it emits. -/
def notifyAfter (s : TrackerState) : TrackerState × List NotifyEvent :=
  (s, notifyListeners s)

/-- The view that reportPageVisibility recomputes (lines 684-692) from the
updated map: the best page, its ratio rounded to 10% steps, and the derived
documentProgress; totalPages is the current total of the tracker. -/
def reportComputedView (s : TrackerState) (pageNumber ratio : ℚ) (centerDistance : QInf) :
    CurrentView :=
  { pageNumber := (findBest (mapSet pageNumber ⟨ratio, centerDistance⟩ s.pageVisibilities)).bestPage
    viewportProgress :=
      (jsRound ((findBest (mapSet pageNumber ⟨ratio, centerDistance⟩ s.pageVisibilities)).bestRatio * 10) : ℚ) / 10
    documentProgress :=
      documentProgressOf s.totalPages
        (findBest (mapSet pageNumber ⟨ratio, centerDistance⟩ s.pageVisibilities)).bestPage
    totalPages := s.totalPages }

/-- reportPageVisibility (lines 659-709): store the report in the map,
recompute the best view, and only when one of the three compared fields
changed, overwrite currentView and notify. -/
def reportPageVisibility (s : TrackerState) (pageNumber ratio : ℚ) (centerDistance : QInf) :
    TrackerState × List NotifyEvent :=
  if s.currentView.pageNumber ≠ (reportComputedView s pageNumber ratio centerDistance).pageNumber ∨
      s.currentView.viewportProgress ≠ (reportComputedView s pageNumber ratio centerDistance).viewportProgress ∨
      s.currentView.documentProgress ≠ (reportComputedView s pageNumber ratio centerDistance).documentProgress then
    notifyAfter { s with
      pageVisibilities := mapSet pageNumber ⟨ratio, centerDistance⟩ s.pageVisibilities
      currentView := reportComputedView s pageNumber ratio centerDistance }
  else
    ({ s with pageVisibilities := mapSet pageNumber ⟨ratio, centerDistance⟩ s.pageVisibilities }, [])

/-- unregisterPage (lines 714-716): delete the entry, nothing else. -/
def unregisterPage (s : TrackerState) (pageNumber : ℚ) : TrackerState × List NotifyEvent :=
  ({ s with pageVisibilities := mapDelete pageNumber s.pageVisibilities }, [])

/-- reset (lines 721-725): clear the map and restore the default view with
the current total; only syncToWindow, no notification. -/
def reset (s : TrackerState) : TrackerState × List NotifyEvent :=
  ({ s with
      pageVisibilities := [],
      currentView := { pageNumber := 1, viewportProgress := 0, documentProgress := 0,
                       totalPages := s.totalPages } }, [])

/-- setView (lines 730-745): clamp the page, round and clamp the progress,
recompute documentProgress, overwrite and notify unconditionally. -/
def setView (s : TrackerState) (pageNumber viewportProgress : ℚ) :
    TrackerState × List NotifyEvent :=
  notifyAfter { s with currentView :=
    { pageNumber := max 1 (min pageNumber s.totalPages)
      viewportProgress := max 0 (min ((jsRound (viewportProgress * 10) : ℚ) / 10) 1)
      documentProgress := documentProgressOf s.totalPages (max 1 (min pageNumber s.totalPages))
      totalPages := s.totalPages } }

/-- setTotalPages (lines 750-752). -/
def setTotalPages (s : TrackerState) (total : ℚ) : TrackerState × List NotifyEvent :=
  ({ s with totalPages := total }, [])

/-- JavaScript Set.add on the listener set: append when absent. -/
def setAdd (l : List ℕ) (i : ℕ) : List ℕ :=
  if i ∈ l then l else l ++ [i]

/-- subscribe (lines 778-783): register the listener and immediately invoke
it once with the current view snapshot. -/
def subscribe (s : TrackerState) (i : ℕ) : TrackerState × List NotifyEvent :=
  ({ s with listeners := setAdd s.listeners i }, [(i, s.currentView)])

/-- The disposer returned by subscribe: remove the listener. -/
def unsubscribe (s : TrackerState) (i : ℕ) : TrackerState :=
  { s with listeners := s.listeners.filter (fun j => j ≠ i) }

/-- The page computed by updateFromScroll (lines 822-823). -/
def scrollPage (scrollTop pageHeight totalPages : ℚ) : ℚ :=
  max 1 (min ((⌊scrollTop / pageHeight⌋ : ℤ) + 1 : ℚ) totalPages)

/-- The view updateFromScroll recomputes (lines 822-831). -/
def scrollComputedView (scrollTop pageHeight totalPages : ℚ) : CurrentView :=
  { pageNumber := scrollPage scrollTop pageHeight totalPages
    viewportProgress :=
      (jsRound (max 0 (min ((scrollTop - (scrollPage scrollTop pageHeight totalPages - 1) * pageHeight) / pageHeight) 1) * 10) : ℚ) / 10
    documentProgress := documentProgressOf totalPages (scrollPage scrollTop pageHeight totalPages)
    totalPages := totalPages }

/-- updateFromScroll (lines 816-847): guarded no-op on non-positive inputs;
otherwise store the new total, recompute the view, and overwrite plus notify
only when one of the three compared fields changed. -/
def updateFromScroll (s : TrackerState) (scrollTop pageHeight totalPages : ℚ) :
    TrackerState × List NotifyEvent :=
  if pageHeight ≤ 0 ∨ totalPages ≤ 0 then (s, [])
  else if s.currentView.pageNumber ≠ (scrollComputedView scrollTop pageHeight totalPages).pageNumber ∨
      s.currentView.viewportProgress ≠ (scrollComputedView scrollTop pageHeight totalPages).viewportProgress ∨
      s.currentView.documentProgress ≠ (scrollComputedView scrollTop pageHeight totalPages).documentProgress then
    notifyAfter { s with
      totalPages := totalPages,
      currentView := scrollComputedView scrollTop pageHeight totalPages }
  else
    ({ s with totalPages := totalPages }, [])

/-- The invariant claimed for currentView. -/
def ViewInvariant (v : CurrentView) : Prop :=
  1 ≤ v.pageNumber ∧ v.pageNumber ≤ v.totalPages

/-! ### Order lemmas for QInf -/

theorem QInf.lt_iff_toW (a b : QInf) : QInf.lt a b ↔ a.toW < b.toW := by
  cases a <;> cases b <;> simp [QInf.lt, QInf.toW]

theorem QInf.not_lt_iff_toW (a b : QInf) : ¬ QInf.lt a b ↔ b.toW ≤ a.toW := by
  rw [QInf.lt_iff_toW]; exact not_lt

/-! ### Lemmas about the map operations -/

theorem mapSet_idem (k : ℚ) (v : VisEntry) (m : List (ℚ × VisEntry)) :
    mapSet k v (mapSet k v m) = mapSet k v m := by
  induction m with
  | nil => simp [mapSet]
  | cons kv t ih =>
    obtain ⟨k1, v1⟩ := kv
    by_cases h : k1 = k
    · simp [mapSet, h]
    · simp [mapSet, h, ih]

theorem mem_mapSet (k : ℚ) (v : VisEntry) (m : List (ℚ × VisEntry)) (kv : ℚ × VisEntry)
    (h : kv ∈ mapSet k v m) : kv = (k, v) ∨ kv ∈ m := by
  induction m with
  | nil => simpa [mapSet] using h
  | cons kv1 t ih =>
    obtain ⟨k1, v1⟩ := kv1
    by_cases hk : k1 = k
    · rw [mapSet, if_pos hk] at h
      rcases List.mem_cons.mp h with h1 | h1
      · exact Or.inl h1
      · exact Or.inr (List.mem_cons_of_mem _ h1)
    · rw [mapSet, if_neg hk] at h
      rcases List.mem_cons.mp h with h1 | h1
      · exact Or.inr (by rw [h1]; exact List.mem_cons_self _ _)
      · rcases ih h1 with h2 | h2
        · exact Or.inl h2
        · exact Or.inr (List.mem_cons_of_mem _ h2)

/-! ### Lemmas about the best-page scan -/

theorem bestFold_nil (b0 : BestAcc) : bestFold [] b0 = b0 := rfl

theorem bestFold_cons (kv : ℚ × VisEntry) (t : List (ℚ × VisEntry)) (b0 : BestAcc) :
    bestFold (kv :: t) b0 = bestFold t (bestStep b0 kv.1 kv.2) := rfl

theorem bestStep_eq_or (b : BestAcc) (k : ℚ) (v : VisEntry) :
    bestStep b k v = b ∨
      bestStep b k v =
        { bestPage := k, bestRatio := v.ratio, bestCenterDistance := v.centerDistance } := by
  by_cases h1 : b.bestRatio < v.ratio
  · refine Or.inr ?_
    simp only [bestStep, if_pos h1]
  · by_cases h2 : v.ratio = b.bestRatio ∧ QInf.lt v.centerDistance b.bestCenterDistance
    · refine Or.inr ?_
      simp only [bestStep, if_neg h1, if_pos h2]
      rw [h2.1]
    · refine Or.inl ?_
      simp only [bestStep, if_neg h1, if_neg h2]

theorem bestStep_ratio (b : BestAcc) (k : ℚ) (v : VisEntry) :
    b.bestRatio ≤ (bestStep b k v).bestRatio ∧ v.ratio ≤ (bestStep b k v).bestRatio := by
  by_cases h1 : b.bestRatio < v.ratio
  · simp only [bestStep, if_pos h1]
    exact ⟨le_of_lt h1, le_refl _⟩
  · by_cases h2 : v.ratio = b.bestRatio ∧ QInf.lt v.centerDistance b.bestCenterDistance
    · simp only [bestStep, if_neg h1, if_pos h2]
      exact ⟨le_refl _, le_of_eq h2.1⟩
    · simp only [bestStep, if_neg h1, if_neg h2]
      exact ⟨le_refl _, not_lt.mp h1⟩

theorem bestStep_cd (b : BestAcc) (k : ℚ) (v : VisEntry)
    (h : (bestStep b k v).bestRatio = b.bestRatio) :
    (bestStep b k v).bestCenterDistance.toW ≤ b.bestCenterDistance.toW := by
  by_cases h1 : b.bestRatio < v.ratio
  · simp only [bestStep, if_pos h1] at h
    exact absurd h (ne_of_gt h1)
  · by_cases h2 : v.ratio = b.bestRatio ∧ QInf.lt v.centerDistance b.bestCenterDistance
    · simp only [bestStep, if_neg h1, if_pos h2]
      exact le_of_lt ((QInf.lt_iff_toW _ _).mp h2.2)
    · simp only [bestStep, if_neg h1, if_neg h2]
      exact le_rfl

theorem bestStep_cd_entry (b : BestAcc) (k : ℚ) (v : VisEntry)
    (h : v.ratio = (bestStep b k v).bestRatio) :
    (bestStep b k v).bestCenterDistance.toW ≤ v.centerDistance.toW := by
  by_cases h1 : b.bestRatio < v.ratio
  · simp only [bestStep, if_pos h1]
    exact le_rfl
  · by_cases h2 : v.ratio = b.bestRatio ∧ QInf.lt v.centerDistance b.bestCenterDistance
    · simp only [bestStep, if_neg h1, if_pos h2]
      exact le_rfl
    · simp only [bestStep, if_neg h1, if_neg h2] at h ⊢
      have h3 : ¬ QInf.lt v.centerDistance b.bestCenterDistance := fun hc => h2 ⟨h, hc⟩
      exact (QInf.not_lt_iff_toW _ _).mp h3

theorem bestFold_mem (m : List (ℚ × VisEntry)) (b0 : BestAcc) :
    bestFold m b0 = b0 ∨
      ∃ kv ∈ m, bestFold m b0 =
        { bestPage := kv.1, bestRatio := kv.2.ratio, bestCenterDistance := kv.2.centerDistance } := by
  induction m generalizing b0 with
  | nil => exact Or.inl rfl
  | cons kv t ih =>
    rw [bestFold_cons]
    rcases ih (bestStep b0 kv.1 kv.2) with h | ⟨kv2, hm, he⟩
    · rcases bestStep_eq_or b0 kv.1 kv.2 with h2 | h2
      · exact Or.inl (h.trans h2)
      · exact Or.inr ⟨kv, List.mem_cons_self _ _, h.trans h2⟩
    · exact Or.inr ⟨kv2, List.mem_cons_of_mem _ hm, he⟩

theorem bestFold_ratio (m : List (ℚ × VisEntry)) (b0 : BestAcc) :
    b0.bestRatio ≤ (bestFold m b0).bestRatio ∧
      ∀ kv ∈ m, kv.2.ratio ≤ (bestFold m b0).bestRatio := by
  induction m generalizing b0 with
  | nil => exact ⟨le_refl _, by simp⟩
  | cons kv t ih =>
    rw [bestFold_cons]
    have hstep := bestStep_ratio b0 kv.1 kv.2
    have hfold := ih (bestStep b0 kv.1 kv.2)
    refine ⟨le_trans hstep.1 hfold.1, ?_⟩
    intro kv2 hkv2
    rcases List.mem_cons.mp hkv2 with h | h
    · rw [h]; exact le_trans hstep.2 hfold.1
    · exact hfold.2 kv2 h

theorem bestFold_cd (m : List (ℚ × VisEntry)) (b0 : BestAcc) :
    ((bestFold m b0).bestRatio = b0.bestRatio →
      (bestFold m b0).bestCenterDistance.toW ≤ b0.bestCenterDistance.toW) ∧
    ∀ kv ∈ m, kv.2.ratio = (bestFold m b0).bestRatio →
      (bestFold m b0).bestCenterDistance.toW ≤ kv.2.centerDistance.toW := by
  induction m generalizing b0 with
  | nil => exact ⟨fun _ => le_rfl, by simp⟩
  | cons kv t ih =>
    rw [bestFold_cons]
    have hsr := bestStep_ratio b0 kv.1 kv.2
    have hfr := bestFold_ratio t (bestStep b0 kv.1 kv.2)
    have ihs := ih (bestStep b0 kv.1 kv.2)
    constructor
    · intro h
      have hb1 : (bestStep b0 kv.1 kv.2).bestRatio = b0.bestRatio := by
        have h1 := hfr.1
        rw [h] at h1
        exact le_antisymm h1 hsr.1
      have hBB : (bestFold t (bestStep b0 kv.1 kv.2)).bestRatio =
          (bestStep b0 kv.1 kv.2).bestRatio := by
        rw [h, hb1]
      exact le_trans (ihs.1 hBB) (bestStep_cd b0 kv.1 kv.2 hb1)
    · intro kv2 hkv2 hr
      rcases List.mem_cons.mp hkv2 with he | ht
      · have hb1 : kv.2.ratio = (bestStep b0 kv.1 kv.2).bestRatio := by
          have h1 := hfr.1
          rw [← hr, he] at h1
          exact le_antisymm hsr.2 h1
        have hBB : (bestFold t (bestStep b0 kv.1 kv.2)).bestRatio =
            (bestStep b0 kv.1 kv.2).bestRatio := by
          rw [← hb1, ← hr, he]
        have hmain := le_trans (ihs.1 hBB) (bestStep_cd_entry b0 kv.1 kv.2 hb1)
        rw [he]
        exact hmain
      · exact ihs.2 kv2 ht hr

/-- Specification of the whole scan: the selected triple is one of the
candidates (fallback included), its ratio is maximal among them, and among
the candidates tied on that ratio no centerDistance is strictly smaller. -/
theorem findBest_spec (m : List (ℚ × VisEntry)) :
    ((findBest m).bestPage,
        (⟨(findBest m).bestRatio, (findBest m).bestCenterDistance⟩ : VisEntry)) ∈ bestCandidates m ∧
    (∀ kv ∈ bestCandidates m, kv.2.ratio ≤ (findBest m).bestRatio) ∧
    (∀ kv ∈ bestCandidates m, kv.2.ratio = (findBest m).bestRatio →
      ¬ QInf.lt kv.2.centerDistance (findBest m).bestCenterDistance) := by
  refine ⟨?_, ?_, ?_⟩
  · rcases bestFold_mem m ⟨1, 0, .inf⟩ with h | ⟨kv, hm, he⟩
    · rw [show findBest m = bestFold m ⟨1, 0, .inf⟩ from rfl, h]
      exact List.mem_cons_self _ _
    · rw [show findBest m = bestFold m ⟨1, 0, .inf⟩ from rfl, he]
      exact List.mem_cons_of_mem _ hm
  · intro kv hkv
    rcases List.mem_cons.mp hkv with h | h
    · rw [h]
      exact (bestFold_ratio m ⟨1, 0, .inf⟩).1
    · exact (bestFold_ratio m ⟨1, 0, .inf⟩).2 kv h
  · intro kv hkv hr
    rcases List.mem_cons.mp hkv with h | h
    · rw [h]
      intro hc
      exact hc
    · exact (QInf.not_lt_iff_toW _ _).mpr ((bestFold_cd m ⟨1, 0, .inf⟩).2 kv h hr)

/-! ### State lemmas for the operations -/

theorem report_state (s : TrackerState) (p r : ℚ) (cd : QInf) :
    (reportPageVisibility s p r cd).1.pageVisibilities = mapSet p ⟨r, cd⟩ s.pageVisibilities ∧
    (reportPageVisibility s p r cd).1.totalPages = s.totalPages ∧
    (reportPageVisibility s p r cd).1.listeners = s.listeners ∧
    (reportPageVisibility s p r cd).1.currentView.pageNumber =
      (reportComputedView s p r cd).pageNumber ∧
    (reportPageVisibility s p r cd).1.currentView.viewportProgress =
      (reportComputedView s p r cd).viewportProgress ∧
    (reportPageVisibility s p r cd).1.currentView.documentProgress =
      (reportComputedView s p r cd).documentProgress := by
  unfold reportPageVisibility
  split
  · exact ⟨rfl, rfl, rfl, rfl, rfl, rfl⟩
  · rename_i h
    push_neg at h
    exact ⟨rfl, rfl, rfl, h.1, h.2.1, h.2.2⟩

theorem report_events (s : TrackerState) (p r : ℚ) (cd : QInf) (e : NotifyEvent)
    (he : e ∈ (reportPageVisibility s p r cd).2) : e.1 ∈ s.listeners := by
  unfold reportPageVisibility at he
  split at he
  · simp only [notifyAfter, notifyListeners] at he
    obtain ⟨i, hi, hei⟩ := List.mem_map.mp he
    rw [← hei]
    exact hi
  · simp at he

theorem scroll_state (s : TrackerState) (st ph tp : ℚ) (hph : 0 < ph) (htp : 0 < tp) :
    (updateFromScroll s st ph tp).1.totalPages = tp ∧
    (updateFromScroll s st ph tp).1.listeners = s.listeners ∧
    (updateFromScroll s st ph tp).1.pageVisibilities = s.pageVisibilities ∧
    (updateFromScroll s st ph tp).1.currentView.pageNumber =
      (scrollComputedView st ph tp).pageNumber ∧
    (updateFromScroll s st ph tp).1.currentView.viewportProgress =
      (scrollComputedView st ph tp).viewportProgress ∧
    (updateFromScroll s st ph tp).1.currentView.documentProgress =
      (scrollComputedView st ph tp).documentProgress := by
  unfold updateFromScroll
  rw [if_neg (by push_neg; exact ⟨hph, htp⟩)]
  split
  · exact ⟨rfl, rfl, rfl, rfl, rfl, rfl⟩
  · rename_i h
    push_neg at h
    exact ⟨rfl, rfl, rfl, h.1, h.2.1, h.2.2⟩

/-! ### Lemmas about documentProgressOf -/

theorem documentProgressOf_eq_spec (tp p : ℚ) :
    documentProgressOf tp p =
      if tp ≤ 1 then 0 else (jsRound (100 * (p - 1) / (tp - 1)) : ℚ) / 100 := by
  unfold documentProgressOf
  rcases le_or_lt tp 1 with h | h
  · rw [if_neg (not_lt.mpr h), if_pos h]
  · rw [if_pos h, if_neg (not_le.mpr h)]
    have harg : (p - 1) / (tp - 1) * 100 = 100 * (p - 1) / (tp - 1) := by ring
    rw [harg]

theorem jsRound_mono (a b : ℚ) (h : a ≤ b) : jsRound a ≤ jsRound b :=
  Int.floor_le_floor (by linarith)

theorem documentProgressOf_mono (tp p1 p2 : ℚ) (h : p1 ≤ p2) :
    documentProgressOf tp p1 ≤ documentProgressOf tp p2 := by
  unfold documentProgressOf
  split
  · rename_i h1
    have h3 : (0:ℚ) < tp - 1 := by linarith
    have h4 : (p1 - 1) / (tp - 1) ≤ (p2 - 1) / (tp - 1) :=
      (div_le_div_iff_of_pos_right h3).mpr (by linarith)
    have h5 : (p1 - 1) / (tp - 1) * 100 ≤ (p2 - 1) / (tp - 1) * 100 := by nlinarith
    have h6 := jsRound_mono _ _ h5
    have h7 : ((jsRound ((p1 - 1) / (tp - 1) * 100)) : ℚ) ≤ ((jsRound ((p2 - 1) / (tp - 1) * 100)) : ℚ) := by
      exact_mod_cast h6
    linarith
  · exact le_rfl

/-! ### Claim theorems -/

/-- C1: after every reportPageVisibility call (hence after every sequence of
such calls, since the state is arbitrary), currentView.pageNumber is the best
page of the updated pageVisibilities map: there is an accumulator value whose
page equals currentView.pageNumber, whose (page, ratio, centerDistance)
triple is one of the candidates (the map entries preceded by the fallback
page 1 at ratio 0 and infinite centerDistance), whose ratio is the maximum
candidate ratio, and such that no candidate tied on that ratio has a strictly
smaller centerDistance. -/
theorem C1_report_selects_best_page (s : TrackerState) (p r : ℚ) (cd : QInf) :
    ∃ b : BestAcc,
      (reportPageVisibility s p r cd).1.currentView.pageNumber = b.bestPage ∧
      (b.bestPage, (⟨b.bestRatio, b.bestCenterDistance⟩ : VisEntry)) ∈
        bestCandidates (reportPageVisibility s p r cd).1.pageVisibilities ∧
      (∀ kv ∈ bestCandidates (reportPageVisibility s p r cd).1.pageVisibilities,
        kv.2.ratio ≤ b.bestRatio) ∧
      (∀ kv ∈ bestCandidates (reportPageVisibility s p r cd).1.pageVisibilities,
        kv.2.ratio = b.bestRatio → ¬ QInf.lt kv.2.centerDistance b.bestCenterDistance) := by
  obtain ⟨hpv, _, _, hpage, _, _⟩ := report_state s p r cd
  refine ⟨findBest (mapSet p ⟨r, cd⟩ s.pageVisibilities), ?_, ?_, ?_, ?_⟩
  · exact hpage
  · rw [hpv]
    exact (findBest_spec (mapSet p ⟨r, cd⟩ s.pageVisibilities)).1
  · rw [hpv]
    exact (findBest_spec (mapSet p ⟨r, cd⟩ s.pageVisibilities)).2.1
  · rw [hpv]
    exact (findBest_spec (mapSet p ⟨r, cd⟩ s.pageVisibilities)).2.2

/-- C2 counterexample: reportPageVisibility does not clamp the reported page
into [1, totalPages].  From the initial state (totalPages = 4), reporting
page 5 fully visible makes currentView.pageNumber = 5 with
currentView.totalPages = 4, violating the claimed invariant. -/
theorem C2_counterexample :
    ¬ (1 ≤ (reportPageVisibility initialState 5 1 (.fin 0)).1.currentView.pageNumber ∧
        (reportPageVisibility initialState 5 1 (.fin 0)).1.currentView.pageNumber ≤
          (reportPageVisibility initialState 5 1 (.fin 0)).1.currentView.totalPages) := by
  norm_num [reportPageVisibility, reportComputedView, notifyAfter, initialState,
    documentProgressOf, jsRound, findBest, bestFold, bestStep, mapSet, QInf.lt]

/-- C2 amended: the invariant 1 <= pageNumber <= totalPages on currentView is
preserved by setView (whenever the tracker total is at least 1), by
updateFromScroll (under its guard, with totalPages at least 1, for a state
already satisfying the invariant, since its change-suppression branch keeps
the old view), and by reset; reportPageVisibility preserves it only under
the additional assumption that every page key in the updated map lies in
[1, totalPages], because it performs no clamping. -/
theorem C2_invariant_amended :
    (∀ (s : TrackerState) (p vp : ℚ), 1 ≤ s.totalPages →
      ViewInvariant (setView s p vp).1.currentView) ∧
    (∀ (s : TrackerState) (st ph tp : ℚ), 0 < ph → 1 ≤ tp →
      ViewInvariant s.currentView →
      ViewInvariant (updateFromScroll s st ph tp).1.currentView) ∧
    (∀ s : TrackerState, 1 ≤ s.totalPages → ViewInvariant (reset s).1.currentView) ∧
    (∀ (s : TrackerState) (p r : ℚ) (cd : QInf), 1 ≤ s.totalPages →
      ViewInvariant s.currentView →
      (∀ kv ∈ mapSet p ⟨r, cd⟩ s.pageVisibilities, 1 ≤ kv.1 ∧ kv.1 ≤ s.totalPages) →
      ViewInvariant (reportPageVisibility s p r cd).1.currentView) := by
  refine ⟨?_, ?_, ?_, ?_⟩
  · intro s p vp htp
    refine ⟨le_max_left _ _, ?_⟩
    show max 1 (min p s.totalPages) ≤ s.totalPages
    exact max_le htp (min_le_right _ _)
  · intro s st ph tp hph htp hinv
    unfold updateFromScroll
    rw [if_neg (by push_neg; exact ⟨hph, by linarith⟩)]
    split
    · refine ⟨le_max_left _ _, ?_⟩
      show max 1 (min ((⌊st / ph⌋ : ℤ) + 1 : ℚ) tp) ≤ tp
      exact max_le htp (min_le_right _ _)
    · exact hinv
  · intro s htp
    exact ⟨le_refl _, htp⟩
  · intro s p r cd htp hinv hkeys
    unfold reportPageVisibility
    split
    · show ViewInvariant (reportComputedView s p r cd)
      rcases bestFold_mem (mapSet p ⟨r, cd⟩ s.pageVisibilities) ⟨1, 0, .inf⟩ with h | ⟨kv, hm, he⟩
      · constructor
        · show 1 ≤ (findBest (mapSet p ⟨r, cd⟩ s.pageVisibilities)).bestPage
          rw [show findBest (mapSet p ⟨r, cd⟩ s.pageVisibilities) =
            bestFold (mapSet p ⟨r, cd⟩ s.pageVisibilities) ⟨1, 0, .inf⟩ from rfl, h]
        · show (findBest (mapSet p ⟨r, cd⟩ s.pageVisibilities)).bestPage ≤ s.totalPages
          rw [show findBest (mapSet p ⟨r, cd⟩ s.pageVisibilities) =
            bestFold (mapSet p ⟨r, cd⟩ s.pageVisibilities) ⟨1, 0, .inf⟩ from rfl, h]
          exact htp
      · constructor
        · show 1 ≤ (findBest (mapSet p ⟨r, cd⟩ s.pageVisibilities)).bestPage
          rw [show findBest (mapSet p ⟨r, cd⟩ s.pageVisibilities) =
            bestFold (mapSet p ⟨r, cd⟩ s.pageVisibilities) ⟨1, 0, .inf⟩ from rfl, he]
          exact (hkeys kv hm).1
        · show (findBest (mapSet p ⟨r, cd⟩ s.pageVisibilities)).bestPage ≤ s.totalPages
          rw [show findBest (mapSet p ⟨r, cd⟩ s.pageVisibilities) =
            bestFold (mapSet p ⟨r, cd⟩ s.pageVisibilities) ⟨1, 0, .inf⟩ from rfl, he]
          exact (hkeys kv hm).2
    · exact hinv

/-- C2 amended, witness: all four parts applied at concrete inputs. -/
theorem C2_invariant_amended_witness :
    ViewInvariant (setView initialState 2 0).1.currentView ∧
    ViewInvariant (updateFromScroll initialState 0 100 4).1.currentView ∧
    ViewInvariant (reset initialState).1.currentView ∧
    ViewInvariant (reportPageVisibility initialState 2 1 (.fin 0)).1.currentView := by
  have hinv : ViewInvariant initialState.currentView := by
    constructor <;> norm_num [initialState]
  have htp : (1:ℚ) ≤ initialState.totalPages := by norm_num [initialState]
  refine ⟨C2_invariant_amended.1 initialState 2 0 htp,
          C2_invariant_amended.2.1 initialState 0 100 4 (by norm_num) (by norm_num) ?_,
          C2_invariant_amended.2.2.1 initialState htp,
          C2_invariant_amended.2.2.2 initialState 2 1 (.fin 0) htp hinv ?_⟩
  · exact hinv
  · intro kv hkv
    simp only [initialState, mapSet, List.mem_singleton] at hkv
    rw [hkv]
    norm_num [initialState]

/-- C3 counterexample: setView(3, 0.55) on the initial state (a 4-page
document) does not yield viewportProgress = 0.5: Math.round(0.55 * 10) =
Math.round(5.5) rounds half up to 6, so the stored value is 0.6. -/
theorem C3_counterexample :
    ¬ ((setView initialState 3 (55 / 100)).1.currentView.viewportProgress = 5 / 10) := by
  norm_num [setView, notifyAfter, initialState, documentProgressOf, jsRound]

/-- C3 amended: setView(3, 0.55) with totalPages = 4 yields pageNumber 3,
viewportProgress 0.6 (0.55 * 10 = 5.5 rounds half up to 6, then divide by
10) and documentProgress 0.67; and setView always overwrites currentView
with the recomputed record and notifies every subscriber unconditionally,
even when the new view equals the old one. -/
theorem C3_setView_amended (s : TrackerState) (h : s.totalPages = 4) :
    (setView s 3 (55 / 100)).1.currentView.pageNumber = 3 ∧
    (setView s 3 (55 / 100)).1.currentView.viewportProgress = 6 / 10 ∧
    (setView s 3 (55 / 100)).1.currentView.documentProgress = 67 / 100 ∧
    (∀ p vp : ℚ,
      (setView s p vp).1.currentView =
        { pageNumber := max 1 (min p s.totalPages)
          viewportProgress := max 0 (min ((jsRound (vp * 10) : ℚ) / 10) 1)
          documentProgress := documentProgressOf s.totalPages (max 1 (min p s.totalPages))
          totalPages := s.totalPages } ∧
      (setView s p vp).2 =
        s.listeners.map (fun i => (i, (setView s p vp).1.currentView))) := by
  refine ⟨?_, ?_, ?_, fun p vp => ⟨rfl, rfl⟩⟩
  · show max 1 (min 3 s.totalPages) = 3
    rw [h]; norm_num
  · show max 0 (min ((jsRound (55 / 100 * 10) : ℚ) / 10) 1) = 6 / 10
    norm_num [jsRound]
  · show documentProgressOf s.totalPages (max 1 (min 3 s.totalPages)) = 67 / 100
    rw [h]; norm_num [documentProgressOf, jsRound]

/-- C3 amended, witness at the initial state (totalPages = 4). -/
theorem C3_setView_amended_witness :
    (setView initialState 3 (55 / 100)).1.currentView.pageNumber = 3 ∧
    (setView initialState 3 (55 / 100)).1.currentView.viewportProgress = 6 / 10 ∧
    (setView initialState 3 (55 / 100)).1.currentView.documentProgress = 67 / 100 ∧
    (∀ p vp : ℚ,
      (setView initialState p vp).1.currentView =
        { pageNumber := max 1 (min p initialState.totalPages)
          viewportProgress := max 0 (min ((jsRound (vp * 10) : ℚ) / 10) 1)
          documentProgress := documentProgressOf initialState.totalPages
            (max 1 (min p initialState.totalPages))
          totalPages := initialState.totalPages } ∧
      (setView initialState p vp).2 =
        initialState.listeners.map (fun i => (i, (setView initialState p vp).1.currentView))) :=
  C3_setView_amended initialState rfl

/-- Helper: when the recomputed view agrees with the stored one on all three
compared fields, reportPageVisibility only stores the report and emits no
notification. -/
theorem report_nochange (s : TrackerState) (p r : ℚ) (cd : QInf)
    (h1 : s.currentView.pageNumber = (reportComputedView s p r cd).pageNumber)
    (h2 : s.currentView.viewportProgress = (reportComputedView s p r cd).viewportProgress)
    (h3 : s.currentView.documentProgress = (reportComputedView s p r cd).documentProgress) :
    reportPageVisibility s p r cd =
      ({ s with pageVisibilities := mapSet p ⟨r, cd⟩ s.pageVisibilities }, []) := by
  unfold reportPageVisibility
  rw [if_neg]
  push_neg
  exact ⟨h1, h2, h3⟩

/-- C4 counterexample: reporting the same triple twice does not always
produce exactly one notification.  On the initial state with one subscriber,
the report (1, 0, Infinity) recomputes a view equal to the stored one, so
the first call already suppresses its notification and the two calls
together notify zero times, not once. -/
theorem C4_counterexample :
    ¬ (((reportPageVisibility (subscribe initialState 0).1 1 0 .inf).2.length +
        (reportPageVisibility
          (reportPageVisibility (subscribe initialState 0).1 1 0 .inf).1 1 0 .inf).2.length) = 1) := by
  norm_num [reportPageVisibility, reportComputedView, subscribe, setAdd, notifyAfter,
    initialState, documentProgressOf, jsRound, findBest, bestFold, bestStep, mapSet, QInf.lt]

/-- C4 amended: for every tracker state and every triple, the second of two
identical reportPageVisibility calls notifies no subscriber and leaves the
whole state unchanged; hence the two calls produce at most one notification
batch, emitted by the first call only (the first call notifies exactly when
its recomputed view differs from the stored currentView). -/
theorem C4_second_report_silent (s : TrackerState) (p r : ℚ) (cd : QInf) :
    (reportPageVisibility (reportPageVisibility s p r cd).1 p r cd).2 = [] ∧
    (reportPageVisibility (reportPageVisibility s p r cd).1 p r cd).1 =
      (reportPageVisibility s p r cd).1 := by
  obtain ⟨hpv, htot, _, hpage, hvp, hdp⟩ := report_state s p r cd
  have hcv : reportComputedView (reportPageVisibility s p r cd).1 p r cd =
      reportComputedView s p r cd := by
    unfold reportComputedView
    rw [hpv, htot, mapSet_idem]
  have hsecond := report_nochange (reportPageVisibility s p r cd).1 p r cd
    (by rw [hcv]; exact hpage) (by rw [hcv]; exact hvp) (by rw [hcv]; exact hdp)
  rw [hsecond]
  refine ⟨rfl, ?_⟩
  show ({ (reportPageVisibility s p r cd).1 with
    pageVisibilities := mapSet p ⟨r, cd⟩ (reportPageVisibility s p r cd).1.pageVisibilities }) =
      (reportPageVisibility s p r cd).1
  rw [hpv, mapSet_idem, ← hpv]

/-- Helper: a strictly dominant ratio wins the scan step. -/
theorem bestStep_of_lt (b : BestAcc) (k : ℚ) (v : VisEntry) (h : b.bestRatio < v.ratio) :
    bestStep b k v =
      { bestPage := k, bestRatio := v.ratio, bestCenterDistance := v.centerDistance } := by
  simp only [bestStep, if_pos h]

/-- C5: whenever currentView is recomputed by reportPageVisibility, setView
or updateFromScroll, the stored documentProgress is 0 when the governing
total page count is at most 1 and otherwise equals
round(100 * (pageNumber - 1) / (totalPages - 1)) / 100, where pageNumber is
the stored page; in particular reporting page 3 fully visible on the
4-page initial state stores documentProgress = 0.67. -/
theorem C5_documentProgress_formula :
    (∀ (s : TrackerState) (p r : ℚ) (cd : QInf),
      (reportPageVisibility s p r cd).1.currentView.documentProgress =
        (if s.totalPages ≤ 1 then 0 else
          (jsRound (100 * ((reportPageVisibility s p r cd).1.currentView.pageNumber - 1) /
            (s.totalPages - 1)) : ℚ) / 100)) ∧
    (∀ (s : TrackerState) (p vp : ℚ),
      (setView s p vp).1.currentView.documentProgress =
        (if s.totalPages ≤ 1 then 0 else
          (jsRound (100 * ((setView s p vp).1.currentView.pageNumber - 1) /
            (s.totalPages - 1)) : ℚ) / 100)) ∧
    (∀ (s : TrackerState) (st ph tp : ℚ), 0 < ph → 0 < tp →
      (updateFromScroll s st ph tp).1.currentView.documentProgress =
        (if tp ≤ 1 then 0 else
          (jsRound (100 * ((updateFromScroll s st ph tp).1.currentView.pageNumber - 1) /
            (tp - 1)) : ℚ) / 100)) ∧
    (reportPageVisibility initialState 3 1 (.fin 0)).1.currentView.documentProgress = 67 / 100 := by
  refine ⟨?_, ?_, ?_, ?_⟩
  · intro s p r cd
    obtain ⟨_, _, _, hpage, _, hdp⟩ := report_state s p r cd
    rw [hdp, hpage]
    exact documentProgressOf_eq_spec s.totalPages _
  · intro s p vp
    show documentProgressOf s.totalPages (max 1 (min p s.totalPages)) = _
    exact documentProgressOf_eq_spec s.totalPages _
  · intro s st ph tp hph htp
    obtain ⟨_, _, _, hpage, _, hdp⟩ := scroll_state s st ph tp hph htp
    rw [hdp, hpage]
    exact documentProgressOf_eq_spec tp _
  · norm_num [reportPageVisibility, reportComputedView, notifyAfter, initialState,
      documentProgressOf, jsRound, findBest, bestFold, bestStep, mapSet, QInf.lt]

/-- C5 witness: the updateFromScroll part applied at a concrete input. -/
theorem C5_documentProgress_formula_witness :
    (updateFromScroll initialState 150 100 4).1.currentView.documentProgress =
      (if (4:ℚ) ≤ 1 then 0 else
        (jsRound (100 * ((updateFromScroll initialState 150 100 4).1.currentView.pageNumber - 1) /
          ((4:ℚ) - 1)) : ℚ) / 100) :=
  C5_documentProgress_formula.2.2.1 initialState 150 100 4 (by norm_num) (by norm_num)

/-- C6: uniform forward scroll across a page boundary.  In a state whose map
holds exactly the entry for page n - 1, as soon as a report for page n
carries a ratio strictly above the ratio of page n - 1 (and above 0, so that the
fallback cannot win), page n becomes the best page, and the stored
documentProgress is at least the value page n - 1 would give, i.e. the
progress never drops across the transition boundary. -/
theorem C6_forward_scroll_monotone (s : TrackerState) (e : VisEntry) (n r : ℚ) (cd : QInf)
    (hmap : s.pageVisibilities = [(n - 1, e)])
    (hr1 : e.ratio < r) (hr0 : 0 < r) :
    (reportPageVisibility s n r cd).1.currentView.pageNumber = n ∧
    documentProgressOf s.totalPages (n - 1) ≤
      (reportPageVisibility s n r cd).1.currentView.documentProgress := by
  have hne : n - 1 ≠ n := by intro hh; linarith
  have hmap2 : mapSet n ⟨r, cd⟩ s.pageVisibilities = [(n - 1, e), (n, ⟨r, cd⟩)] := by
    rw [hmap]
    simp [mapSet, hne]
  have hlt : (bestStep ⟨1, 0, .inf⟩ (n - 1) e).bestRatio < r := by
    rcases bestStep_eq_or ⟨1, 0, .inf⟩ (n - 1) e with h | h
    · rw [h]; exact hr0
    · rw [h]; exact hr1
  have hfb : findBest (mapSet n ⟨r, cd⟩ s.pageVisibilities) =
      { bestPage := n, bestRatio := r, bestCenterDistance := cd } := by
    rw [hmap2]
    show bestStep (bestStep ⟨1, 0, .inf⟩ (n - 1) e) n ⟨r, cd⟩ = _
    exact bestStep_of_lt _ _ _ hlt
  obtain ⟨_, _, _, hpage, _, hdp⟩ := report_state s n r cd
  constructor
  · rw [hpage]
    show (findBest (mapSet n ⟨r, cd⟩ s.pageVisibilities)).bestPage = n
    rw [hfb]
  · rw [hdp]
    show documentProgressOf s.totalPages (n - 1) ≤
      documentProgressOf s.totalPages (findBest (mapSet n ⟨r, cd⟩ s.pageVisibilities)).bestPage
    rw [hfb]
    exact documentProgressOf_mono s.totalPages (n - 1) n (by linarith)

/-- C6 witness: page 2 holds ratio 1/2, a report for page 3 with ratio 3/4
wins and documentProgress does not drop. -/
theorem C6_forward_scroll_monotone_witness :
    (reportPageVisibility
        { initialState with pageVisibilities := [((3:ℚ) - 1, ⟨1/2, .fin 5⟩)] }
        3 (3/4) (.fin 2)).1.currentView.pageNumber = 3 ∧
    documentProgressOf
        (TrackerState.totalPages
          { initialState with pageVisibilities := [((3:ℚ) - 1, ⟨1/2, .fin 5⟩)] }) ((3:ℚ) - 1) ≤
      (reportPageVisibility
        { initialState with pageVisibilities := [((3:ℚ) - 1, ⟨1/2, .fin 5⟩)] }
        3 (3/4) (.fin 2)).1.currentView.documentProgress :=
  C6_forward_scroll_monotone
    { initialState with pageVisibilities := [((3:ℚ) - 1, ⟨1/2, .fin 5⟩)] }
    ⟨1/2, .fin 5⟩ 3 (3/4) (.fin 2) rfl (by norm_num) (by norm_num)

/-- C7: subscribe synchronously delivers exactly one notification to the new
listener, carrying the current view of the state it was called on (not the
stale initial view), and registers the listener; the disposer removes the
listener, after which a subsequent reportPageVisibility can never notify
it. -/
theorem C7_subscribe_once_and_dispose (s : TrackerState) (i : ℕ) :
    (subscribe s i).2 = [(i, s.currentView)] ∧
    (subscribe s i).1.listeners = setAdd s.listeners i ∧
    (∀ t : TrackerState, i ∉ (unsubscribe t i).listeners) ∧
    (∀ (t : TrackerState) (p r : ℚ) (cd : QInf), ∀ e ∈ (reportPageVisibility (unsubscribe t i) p r cd).2,
      e.1 ≠ i) := by
  refine ⟨rfl, rfl, ?_, ?_⟩
  · intro t
    simp [unsubscribe, List.mem_filter]
  · intro t p r cd e he
    have h1 := report_events _ p r cd e he
    simp only [unsubscribe, List.mem_filter, decide_eq_true_eq] at h1
    exact h1.2

/-- C8: unregisterPage only deletes the map entry of the page: currentView,
listeners and totalPages are untouched and no notification is emitted; the
best page is re-evaluated only on the next report, so after unregistering
the former best page 4 (ratio 1), a report for page 2 with ratio 0.5 makes
page 2 the best page. -/
theorem C8_unregister_frame :
    (∀ (s : TrackerState) (p : ℚ),
      (unregisterPage s p).1.currentView = s.currentView ∧
      (unregisterPage s p).1.listeners = s.listeners ∧
      (unregisterPage s p).1.totalPages = s.totalPages ∧
      (unregisterPage s p).1.pageVisibilities = mapDelete p s.pageVisibilities ∧
      (unregisterPage s p).2 = []) ∧
    (reportPageVisibility
        (unregisterPage (reportPageVisibility initialState 4 1 (.fin 10)).1 4).1
        2 (1 / 2) (.fin 20)).1.currentView.pageNumber = 2 := by
  constructor
  · exact fun s p => ⟨rfl, rfl, rfl, rfl, rfl⟩
  · norm_num [reportPageVisibility, reportComputedView, unregisterPage, notifyAfter,
      initialState, documentProgressOf, jsRound, findBest, bestFold, bestStep, mapSet,
      mapDelete, QInf.lt]

/-- C9: updateFromScroll is a complete no-op (state and notifications) when
pageHeight <= 0 or totalPages <= 0; otherwise the stored view satisfies
page = clamp(floor(scrollTop / pageHeight) + 1, 1, totalPages),
viewportProgress = the intra-page position clamped to [0,1] and rounded to
10% steps, and documentProgress = the standard formula over that page. -/
theorem C9_updateFromScroll_guard_and_formulas :
    (∀ (s : TrackerState) (st ph tp : ℚ), ph ≤ 0 ∨ tp ≤ 0 →
      updateFromScroll s st ph tp = (s, [])) ∧
    (∀ (s : TrackerState) (st ph tp : ℚ), 0 < ph → 0 < tp →
      (updateFromScroll s st ph tp).1.currentView.pageNumber =
        max 1 (min ((⌊st / ph⌋ : ℤ) + 1 : ℚ) tp) ∧
      (updateFromScroll s st ph tp).1.currentView.viewportProgress =
        (jsRound (max 0 (min ((st - (max 1 (min ((⌊st / ph⌋ : ℤ) + 1 : ℚ) tp) - 1) * ph) / ph) 1) * 10) : ℚ) / 10 ∧
      (updateFromScroll s st ph tp).1.currentView.documentProgress =
        (if tp ≤ 1 then 0 else
          (jsRound (100 * (max 1 (min ((⌊st / ph⌋ : ℤ) + 1 : ℚ) tp) - 1) / (tp - 1)) : ℚ) / 100)) := by
  constructor
  · intro s st ph tp h
    unfold updateFromScroll
    rw [if_pos h]
  · intro s st ph tp hph htp
    obtain ⟨_, _, _, hpage, hvp, hdp⟩ := scroll_state s st ph tp hph htp
    refine ⟨?_, ?_, ?_⟩
    · rw [hpage]; rfl
    · rw [hvp]; rfl
    · rw [hdp]
      show documentProgressOf tp (scrollPage st ph tp) = _
      rw [documentProgressOf_eq_spec]
      rfl

/-- C9 witness: the guard applied at pageHeight = 0, and the formulas
applied at scrollTop 150, pageHeight 100, totalPages 4. -/
theorem C9_updateFromScroll_witness :
    updateFromScroll initialState 5 0 3 = (initialState, []) ∧
    ((updateFromScroll initialState 150 100 4).1.currentView.pageNumber =
        max 1 (min ((⌊(150:ℚ) / 100⌋ : ℤ) + 1 : ℚ) 4) ∧
      (updateFromScroll initialState 150 100 4).1.currentView.viewportProgress =
        (jsRound (max 0 (min (((150:ℚ) - (max 1 (min ((⌊(150:ℚ) / 100⌋ : ℤ) + 1 : ℚ) 4) - 1) * 100) / 100) 1) * 10) : ℚ) / 10 ∧
      (updateFromScroll initialState 150 100 4).1.currentView.documentProgress =
        (if (4:ℚ) ≤ 1 then 0 else
          (jsRound (100 * (max 1 (min ((⌊(150:ℚ) / 100⌋ : ℤ) + 1 : ℚ) 4) - 1) / ((4:ℚ) - 1)) : ℚ) / 100)) :=
  ⟨C9_updateFromScroll_guard_and_formulas.1 initialState 5 0 3 (Or.inl le_rfl),
   C9_updateFromScroll_guard_and_formulas.2 initialState 150 100 4 (by norm_num) (by norm_num)⟩

/-- Helper: entries carrying ratio 0 and infinite centerDistance never move
the scan away from the fallback accumulator. -/
theorem bestFold_trivial (m : List (ℚ × VisEntry))
    (h : ∀ kv ∈ m, kv.2.ratio = 0 ∧ kv.2.centerDistance = QInf.inf) :
    bestFold m { bestPage := 1, bestRatio := 0, bestCenterDistance := .inf } =
      { bestPage := 1, bestRatio := 0, bestCenterDistance := .inf } := by
  induction m with
  | nil => rfl
  | cons kv t ih =>
    have h1 := h kv (List.mem_cons_self _ _)
    have hstep : bestStep ⟨1, 0, .inf⟩ kv.1 kv.2 = ⟨1, 0, .inf⟩ := by
      have hc1 : ¬ ((⟨1, 0, .inf⟩ : BestAcc).bestRatio < kv.2.ratio) := by
        rw [h1.1]; exact lt_irrefl 0
      have hc2 : ¬ (kv.2.ratio = (⟨1, 0, .inf⟩ : BestAcc).bestRatio ∧
          QInf.lt kv.2.centerDistance (⟨1, 0, .inf⟩ : BestAcc).bestCenterDistance) := by
        intro hc
        rw [h1.2] at hc
        exact hc.2
      simp only [bestStep, if_neg hc1, if_neg hc2]
    rw [bestFold_cons, hstep]
    exact ih (fun kv2 h2 => h kv2 (List.mem_cons_of_mem _ h2))

/-- C10: when the maximum ratio is 0, an entry with a finite centerDistance
beats the page-1 fallback: reporting (5, 0, 100) on the initial (empty-map)
state sets currentView.pageNumber to 5.  A ratio-0 entry with infinite
centerDistance never displaces the fallback: if every stored entry has ratio
0 and infinite centerDistance, reporting (p, 0, Infinity) still selects the
fallback accumulator page 1, ratio 0, centerDistance Infinity. -/
theorem C10_zero_ratio_tiebreak :
    (reportPageVisibility initialState 5 0 (.fin 100)).1.currentView.pageNumber = 5 ∧
    (∀ (m : List (ℚ × VisEntry)) (p : ℚ),
      (∀ kv ∈ m, kv.2.ratio = 0 ∧ kv.2.centerDistance = QInf.inf) →
      findBest (mapSet p ⟨0, QInf.inf⟩ m) =
        { bestPage := 1, bestRatio := 0, bestCenterDistance := QInf.inf }) := by
  constructor
  · norm_num [reportPageVisibility, reportComputedView, notifyAfter, initialState,
      documentProgressOf, jsRound, findBest, bestFold, bestStep, mapSet, QInf.lt]
  · intro m p hm
    have hall : ∀ kv ∈ mapSet p ⟨0, QInf.inf⟩ m,
        kv.2.ratio = 0 ∧ kv.2.centerDistance = QInf.inf := by
      intro kv hkv
      rcases mem_mapSet _ _ _ _ hkv with h | h
      · rw [h]; exact ⟨rfl, rfl⟩
      · exact hm kv h
    exact bestFold_trivial _ hall

/-- C10 witness: the second part applied to the one-entry map with page 7 at
ratio 0 and infinite centerDistance. -/
theorem C10_zero_ratio_tiebreak_witness :
    findBest (mapSet 9 ⟨0, QInf.inf⟩ [(7, ⟨0, QInf.inf⟩)]) =
      { bestPage := 1, bestRatio := 0, bestCenterDistance := QInf.inf } :=
  C10_zero_ratio_tiebreak.2 [(7, ⟨0, QInf.inf⟩)] 9
    (by intro kv hkv; rw [List.mem_singleton.mp hkv]; exact ⟨rfl, rfl⟩)
